import Mathlib

set_option maxRecDepth 8000

/-
Verification development for the CooperativeMambois estimation and
flight-supervision code (KalmanFilter.py and detection_script.py).

Embedding conventions, applied uniformly:

* numpy arrays are rational matrices (Mat, a list of rows); state, input and
  measurement vectors are column matrices.  Exact rational arithmetic stands
  in for IEEE doubles, so numerical-tolerance phrases become exact equalities.
* The Python estimator methods read several bare names (A, B, C, D, P, X, U,
  Rw, Rv) that are attributes of self; those reads are resolved to the
  corresponding attribute, the only reading under which the methods denote
  anything.  Likewise the call self.init_p() resolves to the method named
  init_P and the reads of self.X resolve to the state attribute (written
  self.Xhat by the constructor, self.X by every other method).
* np.inv denotes matrix inversion (numpy.linalg.inv), which raises on a
  singular argument; here inversion returns an Option, none for a singular
  argument.  A raised error propagates out of the method as a none result
  that leaves the object unmodified, since the failing call happens before
  any attribute assignment.
* Mutation of self is modelled by state passing: each method takes the
  object value and returns the updated object value.
* Comparisons of a Euclidean distance (a square root of a nonnegative
  rational) against nonnegative bounds are embedded squared: for e ≥ 0,
  sqrt q > e iff q > e^2, and sqrt q ≥ e iff q ≥ e^2.
* The asynchronously updated attribute self.current_state (written by
  sensor_cb at high rate) is modelled as a stream of snapshots: each pass of
  a polling loop, and each sensor/vision cycle, reads the next snapshot.
-/

abbrev Mat : Type := List (List ℚ)

def dotProd : List ℚ → List ℚ → ℚ
  | a :: as, b :: bs => a * b + dotProd as bs
  | _, _ => 0

def getEntry (m : Mat) (i j : ℕ) : ℚ := (m.getD i []).getD j 0

def matT (m : Mat) : Mat :=
  (List.range (m.headD []).length).map
    (fun j => (List.range m.length).map (fun i => getEntry m i j))

def matMul (a b : Mat) : Mat :=
  a.map (fun row => (matT b).map (fun col => dotProd row col))

def matAdd (a b : Mat) : Mat :=
  List.zipWith (fun r s => List.zipWith (fun p q => p + q) r s) a b

def matSub (a b : Mat) : Mat :=
  List.zipWith (fun r s => List.zipWith (fun p q => p - q) r s) a b

def matSmul (c : ℚ) (m : Mat) : Mat := m.map (fun r => r.map (fun p => c * p))

def minorM (m : Mat) (i j : ℕ) : Mat := (m.eraseIdx i).map (fun r => r.eraseIdx j)

def cofSign (k : ℕ) : ℚ := if k % 2 = 0 then 1 else -1

def detFuel : ℕ → Mat → ℚ
  | 0, _ => 1
  | n + 1, m =>
      ((List.range (n + 1)).map
        (fun j => cofSign j * (m.headD []).getD j 0 * detFuel n (minorM m 0 j))).foldl
        (fun a b => a + b) 0

def detQ (m : Mat) : ℚ := detFuel m.length m

def adjugateQ (m : Mat) : Mat :=
  (List.range m.length).map (fun i =>
    (List.range m.length).map (fun j => cofSign (i + j) * detQ (minorM m j i)))

/-- Model of numpy matrix inversion: none on a singular argument
(numpy.linalg.inv raises LinAlgError there), the inverse otherwise. -/
def npInv (m : Mat) : Option Mat :=
  if detQ m = 0 then none else some (matSmul (1 / detQ m) (adjugateQ m))

/-- Running attribute state of a KalmanFilter object, as read and written by
update_L, update_estim and get_state_estimate. -/
structure KalmanFilter where
  A : Mat
  B : Mat
  C : Mat
  D : Mat
  X : Mat
  U : Mat
  P : Mat
  Rw : Mat
  Rv : Mat
  L : Mat
  deriving DecidableEq

/-- The matrix inverted inside update_L: self.Rv + np.dot(C, np.dot(self.P, C.T)). -/
def innovation_S (kf : KalmanFilter) : Mat :=
  matAdd kf.Rv (matMul kf.C (matMul kf.P (matT kf.C)))

/-- KalmanFilter.update_L: M = np.inv(self.Rv + C·P·Cᵗ);
self.L = np.dot(A, np.dot(P, np.dot(C.T, M))).  A singular argument makes the
inversion raise before self.L is assigned, modelled as a none result. -/
def update_L (kf : KalmanFilter) : Option KalmanFilter :=
  match npInv (innovation_S kf) with
  | none => none
  | some M => some { kf with L := matMul kf.A (matMul kf.P (matMul (matT kf.C) M)) }

/-- KalmanFilter.update_estim: self.X = np.dot(A, X) + np.dot(B, U);
Acl = A - np.dot(self.L, self.C);
self.P = np.dot(Acl, np.dot(self.P, Acl.T)) + Rv + np.dot(self.L, np.dot(Rw, self.L)).
The measurement argument Y is never read by the body. -/
def update_estim (kf : KalmanFilter) (Y : Mat) : KalmanFilter :=
  let Acl := matSub kf.A (matMul kf.L kf.C)
  { kf with
    X := matAdd (matMul kf.A kf.X) (matMul kf.B kf.U)
    P := matAdd (matAdd (matMul Acl (matMul kf.P (matT Acl))) kf.Rv)
                (matMul kf.L (matMul kf.Rw kf.L)) }

/-- KalmanFilter.get_state_estimate(Y, U): runs update_L, then update_estim,
then returns self.X.  The source calls update_estim without arguments; the
measurement is passed through here, which is immaterial since update_estim
never reads it.  The control-input argument U is never stored or read.
A failure inside update_L propagates: no attribute is modified and no state
is returned (first component: the object, second: the returned value). -/
def get_state_estimate (kf : KalmanFilter) (Y U : Mat) : KalmanFilter × Option Mat :=
  match update_L kf with
  | none => (kf, none)
  | some kf1 =>
      let kf2 := update_estim kf1 Y
      (kf2, some kf2.X)

/-- Attribute state of a KalmanFilter object right after __init__ returns.
P and L hold the return values of the lines self.P = self.init_p() and
self.L = self.update_L(). -/
structure KalmanFilterCtor where
  A : Mat
  B : Mat
  C : Mat
  D : Mat
  X : Mat
  U : Mat
  P : Option Mat
  Rw : Mat
  Rv : Mat
  L : Option Mat
  Yhat : Mat
  deriving DecidableEq

/-- The value assigned to self.P inside KalmanFilter.init_P:
np.dot(self.X, self.X.T), the outer product of the state column vector. -/
def init_P (X : Mat) : Mat := matMul X (matT X)

/-- KalmanFilter.__init__: stores the model and noise matrices, then executes
self.P = self.init_p() and self.L = self.update_L().  Both init_P and
update_L end in return None, so after the inner assignment to self.P the
constructor stores None back into self.P, and likewise into self.L.
Yhat models line 44, np.dot(A, X) + np.dot(D, U) (the extra np.array wrapper
around the sum is dropped). -/
def KalmanFilter_init (A B C D Rw Rv X0 U0 : Mat) : KalmanFilterCtor :=
  { A := A, B := B, C := C, D := D
    X := X0, U := U0
    P := none
    Rw := Rw, Rv := Rv
    L := none
    Yhat := matAdd (matMul A X0) (matMul D U0) }

structure Vec3 where
  x : ℚ
  y : ℚ
  z : ℚ
  deriving DecidableEq

structure BBox where
  x1 : ℤ
  y1 : ℤ
  x2 : ℤ
  y2 : ℤ
  deriving DecidableEq

/-- DetectionDrone.bb_threshold. -/
def bb_threshold : ℤ := 62648

/-- The DetectionDrone attributes touched by vision_cb and sensor_cb. -/
structure DroneState where
  current_state : Vec3
  target_acquired : Bool
  firing_position : Option Vec3
  bb : BBox
  deriving DecidableEq

/-- bb_size = (self.bb[2] - self.bb[0]) * (self.bb[3] - self.bb[1]). -/
def bb_size (b : BBox) : ℤ := (b.x2 - b.x1) * (b.y2 - b.y1)

/-- DetectionDrone.vision_cb on one frame.  img is the segmentation result of
the latest valid picture: none models a missing picture.  When a picture is
present and the latch is unset, the bounding box is stored into self.bb and,
when its area reaches self.bb_threshold, the latch is set and
self.firing_position is set to self.current_state (the CSV write is outside
the drone state).  Otherwise the callback leaves the state unchanged. -/
def vision_cb (d : DroneState) (img : Option BBox) : DroneState :=
  match img with
  | none => d
  | some box =>
      if d.target_acquired then d
      else
        let d1 := { d with bb := box }
        if bb_threshold ≤ bb_size box then
          { d1 with target_acquired := true, firing_position := some d.current_state }
        else d1

/-- One sensor-then-vision cycle: sensor_cb publishes the filtered state into
self.current_state, then vision_cb processes the frame of that cycle. -/
def sensor_vision_cycle (d : DroneState) (p : Vec3 × Option BBox) : DroneState :=
  vision_cb { d with current_state := p.1 } p.2

def run_cycles (d : DroneState) : List (Vec3 × Option BBox) → DroneState
  | [] => d
  | p :: rest => run_cycles (sensor_vision_cycle d p) rest

/-- DetectionDrone.eps. -/
def eps : ℚ := 8 / 100

/-- DetectionDrone.max_alt. -/
def max_alt : ℚ := 3

/-- DetectionDrone.max_dist. -/
def max_dist : ℚ := 3

/-- Squared Euclidean distance between two position vectors, the square of
the dist expression computed inside go_to_xyz. -/
def distSq (a b : Vec3) : ℚ := (a.x - b.x) ^ 2 + (a.y - b.y) ^ 2 + (a.z - b.z) ^ 2

/-- Result of one go_to_xyz call: the overwritten self.desired_state, the
overwritten controller desired state, the number of fly_direct commands
issued, and the returned Bool (none when the snapshot stream ran out while
the loop was still running). -/
structure GoResult where
  desired_state : Vec3
  controller_desired : Vec3
  cmds : ℕ
  outcome : Option Bool
  deriving DecidableEq

/-- The while loop of go_to_xyz.  dsq is the square of the most recently
computed dist; each body pass issues one fly_direct command, reads one fresh
current_state snapshot s from the stream, recomputes dist from it, returns
False when s.z ≥ max_alt or dist ≥ max_dist, and otherwise loops with the
new dist.  The loop exits with True when dist ≤ eps.  Distance comparisons
are squared as described in the header. -/
def go_loop (desired : Vec3) : ℚ → List Vec3 → ℕ → Option Bool × ℕ
  | dsq, [], cmds =>
      if dsq ≤ eps ^ 2 then (some true, cmds) else (none, cmds)
  | dsq, s :: rest, cmds =>
      if dsq ≤ eps ^ 2 then (some true, cmds)
      else
        if max_alt ≤ s.z ∨ max_dist ^ 2 ≤ distSq s desired then (some false, cmds + 1)
        else go_loop desired (distSq s desired) rest (cmds + 1)

/-- DetectionDrone.go_to_xyz: stores the desired state into
self.desired_state and into the controller, computes dist from the current
snapshot, then runs the command loop over the stream of later snapshots. -/
def go_to_xyz (current : Vec3) (stream : List Vec3) (desired : Vec3) : GoResult :=
  let r := go_loop desired (distSq current desired) stream 0
  { desired_state := desired, controller_desired := desired, cmds := r.2, outcome := r.1 }

/-- Externally visible commands issued by flight_func and its callees. -/
inductive Ev where
  | takeoff
  | flyDirect
  | smartSleep
  | flyAway
  | land
  | closeVideo
  | disconnect
  deriving DecidableEq

/-- Commands issued by one dumb_fly_up call whose climb loop runs k passes:
each pass issues one fly_direct.  Both outcomes of the call (target acquired,
or altitude bound exceeded) issue no further command. -/
def dumb_fly_up_trace (k : ℕ) : List Ev := List.replicate k Ev.flyDirect

/-- DetectionDrone.flight_func as the trace of commands it issues, for every
terminating execution path: emergency selects the flying-state branch right
after takeoff, jump is the value returned by dumb_fly_up (both values break
out of the surrounding loop after one call), and k is the number of climb
passes inside that call.  Every path ends with fly_away, safe_land,
close_video, disconnect. -/
def flight_func (emergency : Bool) (jump : Bool) (k : ℕ) : List Ev :=
  Ev.takeoff ::
    ((if emergency then []
      else dumb_fly_up_trace k ++ [Ev.smartSleep])
      ++ [Ev.flyAway, Ev.land, Ev.closeVideo, Ev.disconnect])

/-- True when every disconnect in the trace is preceded by an earlier land;
seen records whether a land has already occurred. -/
def land_before_disconnect : Bool → List Ev → Bool
  | _, [] => true
  | seen, Ev.disconnect :: rest => seen && land_before_disconnect seen rest
  | _, Ev.land :: rest => land_before_disconnect true rest
  | seen, _ :: rest => land_before_disconnect seen rest

/-- Covariance propagation exactly as the specification writes it:
Acl = A − L·C; P = Acl·P·Aclᵗ + Rv + L·Rw·Lᵗ.  Stated from the
specification text, for comparison with update_estim. -/
def spec_cov_update (A C L P Rv Rw : Mat) : Mat :=
  let Acl := matSub A (matMul L C)
  matAdd (matAdd (matMul Acl (matMul P (matT Acl))) Rv) (matMul L (matMul Rw (matT L)))

def I2 : Mat := [[1, 0], [0, 1]]

def Z2 : Mat := [[0, 0], [0, 0]]

def Z21 : Mat := [[0], [0]]

def Z1 : Mat := [[0]]

/-- A concrete valid estimator state: symmetric positive-definite P, Rw, Rv,
consistent dimensions (n = 2, one input channel). -/
def kfEx : KalmanFilter :=
  { A := [[2, 2], [0, 2]], B := Z21, C := I2, D := Z21
    X := [[1], [1]], U := Z1, P := I2, Rw := I2, Rv := I2, L := Z2 }

/-- A concrete estimator state with the gain already set, isolating
update_estim. -/
def kfProp : KalmanFilter :=
  { A := [[2, 2], [0, 2]], B := Z21, C := I2, D := Z21
    X := Z21, U := Z1, P := I2, Rw := I2, Rv := I2, L := [[1, 1], [0, 1]] }

/-- A concrete estimator state with degenerate Rv (zero matrix) and
rank-deficient C·P·Cᵗ, making the innovation covariance singular. -/
def kfSing : KalmanFilter :=
  { A := I2, B := Z21, C := I2, D := Z21
    X := [[1], [2]], U := Z1, P := [[1, 0], [0, 0]], Rw := I2, Rv := Z2, L := Z2 }

def drone0 : DroneState :=
  { current_state := ⟨0, 0, 0⟩, target_acquired := false
    firing_position := none, bb := ⟨0, 0, 0, 0⟩ }

def st1 : Vec3 := ⟨0, 0, 1⟩

def st2 : Vec3 := ⟨0, 0, 2⟩

def st3 : Vec3 := ⟨0, 0, 3⟩

def st4 : Vec3 := ⟨0, 0, 4⟩

/-- Bounding box of area 1000. -/
def fr1 : BBox := ⟨0, 0, 10, 100⟩

/-- Bounding box of area 2000. -/
def fr2 : BBox := ⟨0, 0, 20, 100⟩

/-- Bounding box of area 70000. -/
def fr3 : BBox := ⟨0, 0, 700, 100⟩

/-- Bounding box of area 80000. -/
def fr4 : BBox := ⟨0, 0, 800, 100⟩

def cyc3 : List (Vec3 × Option BBox) := [(st1, some fr1), (st2, some fr2), (st3, some fr3)]

def cyc4 : List (Vec3 × Option BBox) :=
  [(st1, some fr1), (st2, some fr2), (st3, some fr3), (st4, some fr4)]

/-- Altitude reading 0.5. -/
def r1 : Vec3 := ⟨0, 0, 1 / 2⟩

/-- Altitude reading 1.2. -/
def r2 : Vec3 := ⟨0, 0, 6 / 5⟩

/-- Altitude reading 2.9. -/
def r3 : Vec3 := ⟨0, 0, 29 / 10⟩

/-- Altitude reading 3.1. -/
def r4 : Vec3 := ⟨0, 0, 31 / 10⟩

/-- Desired climb waypoint at altitude 3.05, directly above the origin. -/
def desClimb : Vec3 := ⟨0, 0, 61 / 20⟩

/-- A hover point already above the altitude bound. -/
def cHover : Vec3 := ⟨0, 0, 4⟩

def rFar : Vec3 := ⟨0, 0, 10⟩

/-- C1: get_state_estimate is claimed to perform predict-and-correct and to
return x = x⁻ + L·(y − C·x⁻ − D·u), a state depending on the measurement y.
In the code, update_estim never reads its measurement and get_state_estimate
never reads its control-input argument, so the result is identical for all
measurements and inputs; on the concrete state kfEx the returned state is
exactly the bare prediction A·X + B·U, with no correction term. -/
theorem C1_step_ignores_measurement :
    (∀ (kf : KalmanFilter) (y1 u1 y2 u2 : Mat),
        get_state_estimate kf y1 u1 = get_state_estimate kf y2 u2)
    ∧ (get_state_estimate kfEx Z21 Z1).2
        = some (matAdd (matMul kfEx.A kfEx.X) (matMul kfEx.B kfEx.U)) :=
  ⟨fun _ _ _ _ _ => rfl, by
    norm_num [get_state_estimate, update_L, update_estim, innovation_S, npInv, detQ,
      detFuel, adjugateQ, minorM, cofSign, matSmul, matAdd, matSub, matMul, matT,
      getEntry, dotProd, kfEx, I2, Z21, Z1, Z2, List.range_succ]⟩

/-- C2: over the vision cycles whose bounding-box areas are 1000, 2000,
70000, 80000 against threshold 62648, the latch is still unset after frames
one and two, set after frame three with firing_position equal to the
filtered state of that cycle, and frame four changes neither the latch nor
firing_position. -/
theorem C2_latch_fires_on_third_frame :
    (run_cycles drone0 [(st1, some fr1)]).target_acquired = false
    ∧ (run_cycles drone0 [(st1, some fr1), (st2, some fr2)]).target_acquired = false
    ∧ (run_cycles drone0 cyc3).target_acquired = true
    ∧ (run_cycles drone0 cyc3).firing_position = some st3
    ∧ (run_cycles drone0 cyc4).target_acquired = true
    ∧ (run_cycles drone0 cyc4).firing_position = some st3 := by
  decide

/-- C3: whenever the innovation covariance Rv + C·P·Cᵗ is singular, the
inversion inside update_L fails, so get_state_estimate fails (returns no
state) and the estimator object is returned unmodified: the previous state
is retained and no NaN-valued state is produced. -/
theorem C3_singular_innovation_fails_and_retains_state
    (kf : KalmanFilter) (Y U : Mat) (h : npInv (innovation_S kf) = none) :
    get_state_estimate kf Y U = (kf, none) := by
  have hL : update_L kf = none := by
    unfold update_L
    rw [h]
  unfold get_state_estimate
  rw [hL]

/-- C3 witness: the degenerate state kfSing (Rv the zero matrix,
C·P·Cᵗ rank-deficient) has a singular innovation covariance, and the step on
it fails and retains the state. -/
theorem C3_witness :
    npInv (innovation_S kfSing) = none
    ∧ get_state_estimate kfSing Z21 Z1 = (kfSing, none) :=
  ⟨by
    norm_num [npInv, innovation_S, detQ, detFuel, minorM, cofSign, matAdd, matMul,
      matT, getEntry, dotProd, kfSing, I2, Z21, Z1, Z2, List.range_succ],
   C3_singular_innovation_fails_and_retains_state kfSing Z21 Z1 (by
    norm_num [npInv, innovation_S, detQ, detFuel, minorM, cofSign, matAdd, matMul,
      matT, getEntry, dotProd, kfSing, I2, Z21, Z1, Z2, List.range_succ])⟩

/-- C4: kfEx is a valid model (C, D, B dimensioned consistently, identity
noise covariances) with symmetric initial covariance P = I, yet after a
single get_state_estimate call the covariance is no longer symmetric: the
code propagates P with the term L·Rw·L in place of L·Rw·Lᵗ. -/
theorem C4_symmetry_broken_after_one_step :
    matT kfEx.P = kfEx.P
    ∧ matT kfEx.Rw = kfEx.Rw
    ∧ matT kfEx.Rv = kfEx.Rv
    ∧ ((get_state_estimate kfEx Z21 Z1).1).P
        ≠ matT ((get_state_estimate kfEx Z21 Z1).1).P := by
  norm_num [get_state_estimate, update_L, update_estim, innovation_S, npInv, detQ,
    detFuel, adjugateQ, minorM, cofSign, matSmul, matAdd, matSub, matMul, matT,
    getEntry, dotProd, kfEx, I2, Z21, Z1, Z2, List.range_succ]

/-- C5: on the concrete state kfProp, update_estim propagates the covariance
to [[4,3],[1,3]], whereas the claimed equation
P = Acl·P·Aclᵗ + Rv + L·Rw·Lᵗ yields [[5,2],[2,3]]: the code computes the
last term as L·Rw·L, without transposing the second factor of L. -/
theorem C5_covariance_update_misses_transpose :
    (update_estim kfProp Z21).P = [[4, 3], [1, 3]]
    ∧ spec_cov_update kfProp.A kfProp.C kfProp.L kfProp.P kfProp.Rv kfProp.Rw
        = [[5, 2], [2, 3]]
    ∧ (update_estim kfProp Z21).P
        ≠ spec_cov_update kfProp.A kfProp.C kfProp.L kfProp.P kfProp.Rv kfProp.Rw := by
  norm_num [update_estim, spec_cov_update, matSmul, matAdd, matSub, matMul, matT,
    getEntry, dotProd, kfProp, I2, Z21, Z1, List.range_succ]

/-- C6: any climb-loop pass that is entered (the previous dist exceeded eps)
and whose fresh snapshot hits a threshold (altitude ≥ max_alt, or distance to
the desired position ≥ max_dist) returns False immediately, without reading
the rest of the stream — hence the loop aborts on the first such cycle.  On
the altitude readings 0.5, 1.2, 2.9, 3.1 toward the waypoint at 3.05, the
fourth reading forces the False return, and without it the loop is still
running. -/
theorem C6_abort_on_threshold
    (des : Vec3) (dsq : ℚ) (s : Vec3) (rest : List Vec3) (c : ℕ)
    (h1 : eps ^ 2 < dsq)
    (h2 : max_alt ≤ s.z ∨ max_dist ^ 2 ≤ distSq s des) :
    go_loop des dsq (s :: rest) c = (some false, c + 1)
    ∧ (go_to_xyz r1 [r2, r3, r4] desClimb).outcome = some false
    ∧ (go_to_xyz r1 [r2, r3] desClimb).outcome = none := by
  refine ⟨?_,
    by norm_num [go_to_xyz, go_loop, distSq, eps, max_alt, max_dist, r1, r2, r3, r4, desClimb],
    by norm_num [go_to_xyz, go_loop, distSq, eps, max_alt, max_dist, r1, r2, r3, desClimb]⟩
  unfold go_loop
  rw [if_neg (not_le.mpr h1), if_pos h2]

/-- C6 witness: a pass entered with squared distance 1 whose snapshot reads
altitude 3.1 aborts at once, together with the concrete four-reading
scenario. -/
theorem C6_witness :
    eps ^ 2 < 1
    ∧ (max_alt ≤ r4.z ∨ max_dist ^ 2 ≤ distSq r4 desClimb)
    ∧ (go_loop desClimb 1 [r4] 0 = (some false, 0 + 1)
        ∧ (go_to_xyz r1 [r2, r3, r4] desClimb).outcome = some false
        ∧ (go_to_xyz r1 [r2, r3] desClimb).outcome = none) :=
  ⟨by norm_num [eps],
   by norm_num [max_alt, r4],
   C6_abort_on_threshold desClimb 1 r4 [] 0 (by norm_num [eps])
     (by norm_num [max_alt, r4])⟩

/-- Helper: the climb commands of dumb_fly_up neither land nor disconnect,
so the scanner passes over them unchanged. -/
theorem land_before_disconnect_replicate (k : ℕ) (seen : Bool) (rest : List Ev) :
    land_before_disconnect seen (List.replicate k Ev.flyDirect ++ rest)
      = land_before_disconnect seen rest := by
  induction k with
  | zero => rfl
  | succ n ih => simpa [List.replicate_succ, land_before_disconnect] using ih

/-- C7: on every terminating execution path of flight_func — emergency right
after takeoff, climb failure (jump false), or successful detection (jump
true), with any number k of climb passes — the trace contains a land command
and every disconnect is preceded by an earlier land: no path skips the
safety landing before shutdown. -/
theorem C7_land_precedes_shutdown (emergency jump : Bool) (k : ℕ) :
    land_before_disconnect false (flight_func emergency jump k) = true
    ∧ Ev.land ∈ flight_func emergency jump k := by
  cases emergency with
  | true =>
      refine ⟨?_, ?_⟩ <;> simp [flight_func, land_before_disconnect]
  | false =>
      refine ⟨?_, ?_⟩
      · simp [flight_func, dumb_fly_up_trace, land_before_disconnect,
          List.append_assoc, land_before_disconnect_replicate]
      · simp [flight_func]

/-- C8: __init__ stores the supplied Rw and Rv unchanged, but the error
covariance it leaves behind is None — the return value of init_P — not the
outer product X₀·X₀ᵗ that init_P assigns transiently and its docstring
promises. -/
theorem C8_ctor_overwrites_P (A B C D Rw Rv X0 U0 : Mat) :
    (KalmanFilter_init A B C D Rw Rv X0 U0).Rw = Rw
    ∧ (KalmanFilter_init A B C D Rw Rv X0 U0).Rv = Rv
    ∧ (KalmanFilter_init A B C D Rw Rv X0 U0).P = none
    ∧ (KalmanFilter_init A B C D Rw Rv X0 U0).P ≠ some (init_P X0)
    ∧ init_P X0 = matMul X0 (matT X0) :=
  ⟨rfl, rfl, rfl, by simp [KalmanFilter_init], rfl⟩

/-- C9 counterexample: a frame whose bounding-box area 1000 is below the
threshold does not latch, yet its bounding box is retained in the drone
state after the callback returns: drone.bb now holds the detection result. -/
theorem C9_counterexample :
    (vision_cb drone0 (some fr1)).target_acquired = false
    ∧ (vision_cb drone0 (some fr1)).firing_position = none
    ∧ (vision_cb drone0 (some fr1)).bb = fr1
    ∧ drone0.bb ≠ fr1 := by
  decide

/-- C9 amended: processing a below-threshold frame with the latch unset
leaves the latch and firing_position unchanged but stores the bounding box
persistently into the bb attribute — the whole effect of the callback is
that single retained field. -/
theorem C9_below_threshold_retains_bb (d : DroneState) (box : BBox)
    (h1 : d.target_acquired = false) (h2 : bb_size box < bb_threshold) :
    vision_cb d (some box) = { d with bb := box } := by
  unfold vision_cb
  rw [h1]
  simp [not_le.mpr h2]

/-- C9 witness: the amended statement at the initial drone state and the
area-1000 frame. -/
theorem C9_amended_witness :
    drone0.target_acquired = false
    ∧ bb_size fr1 < bb_threshold
    ∧ vision_cb drone0 (some fr1) = { drone0 with bb := fr1 } :=
  ⟨rfl, by decide, C9_below_threshold_retains_bb drone0 fr1 rfl (by decide)⟩

/-- C10: when the distance from the current snapshot to the new desired
position is already within eps, go_to_xyz returns True with zero fly_direct
commands issued (the loop body, and with it the altitude/distance abort
check, never runs), yet both the stored desired state and the controller
desired state are overwritten. -/
theorem C10_immediate_return (current : Vec3) (stream : List Vec3) (desired : Vec3)
    (h : distSq current desired ≤ eps ^ 2) :
    go_to_xyz current stream desired
      = { desired_state := desired, controller_desired := desired
          cmds := 0, outcome := some true } := by
  unfold go_to_xyz
  cases stream <;> simp [go_loop, h]

/-- C10 witness: a call at a hover point already at the desired position and
above max_alt returns True at once with no command, overwriting the desired
states — the altitude abort check is never consulted. -/
theorem C10_witness :
    max_alt ≤ cHover.z
    ∧ distSq cHover cHover ≤ eps ^ 2
    ∧ go_to_xyz cHover [rFar] cHover
        = { desired_state := cHover, controller_desired := cHover
            cmds := 0, outcome := some true } :=
  ⟨by norm_num [max_alt, cHover],
   by norm_num [distSq, cHover, eps],
   C10_immediate_return cHover [rFar] cHover (by norm_num [distSq, cHover, eps])⟩
